import Mathlib

/-!
Verification of the Article Quadrant Analyzer's quadrant-generation pipeline
(`mcp_server_article_quadrant/utils/quadrant_generator.py` and
`mcp_server_article_quadrant/tools/generate_quadrant.py`), shallowly embedded
in Lean 4. Python floats are modelled as rationals (`ℚ`), Python dicts with a
known key set as structures whose optional keys are `Option` fields, and the
one exception that can escape a geometry computation (the `ZeroDivisionError`
inside the `novelty` branch) as an `Option` that the surrounding
`try/except` collapses to the soft fallback `(0, 0)`.
-/

/-- The four quadrant identifiers `"Q1"`..`"Q4"`. -/
inductive Quadrant where
  | Q1 | Q2 | Q3 | Q4
deriving DecidableEq

/-- The string key of a quadrant, as used in the Python dictionaries. -/
def qname : Quadrant → String
  | .Q1 => "Q1" | .Q2 => "Q2" | .Q3 => "Q3" | .Q4 => "Q4"

/-- The fixed insertion order of the `quadrants` dictionary keys. -/
def quadrantOrder : List Quadrant := [.Q1, .Q2, .Q3, .Q4]

/-- Position of a quadrant key in the fixed iteration order Q1,Q2,Q3,Q4. -/
def qIndex : Quadrant → ℕ
  | .Q1 => 0 | .Q2 => 1 | .Q3 => 2 | .Q4 => 3

/-- `QuadrantGenerator._calculate_quadrant_position` (quadrant_generator.py
lines 18-27): sign-based classification with the `≤` tie-break. -/
def _calculate_quadrant_position (x_value y_value : ℚ) : Quadrant :=
  if x_value > 0 ∧ y_value > 0 then .Q1
  else if x_value ≤ 0 ∧ y_value > 0 then .Q2
  else if x_value ≤ 0 ∧ y_value ≤ 0 then .Q3
  else .Q4

/-! ## String helpers mirroring the Python primitives used by the source

Python's `str.split()` (split on whitespace runs, dropping empties),
`str.lower()` (modelled for the ASCII range the lexicons use), substring
containment (`word in text`), `int(...)` truncation toward zero and `//`
floor division. They are written by structural recursion over `List Char`
so that every definition evaluates inside the kernel. -/

/-- Worker for `pyTokens`: `cur` holds the current word reversed. -/
def pyTokensAux : List Char → List Char → List String
  | [], cur => if cur.isEmpty then [] else [String.mk cur.reverse]
  | c :: rest, cur =>
    if c.isWhitespace then
      if cur.isEmpty then pyTokensAux rest []
      else String.mk cur.reverse :: pyTokensAux rest []
    else pyTokensAux rest (c :: cur)

/-- Python `s.split()`: maximal whitespace-free runs, no empty tokens. -/
def pyTokens (s : String) : List String := pyTokensAux s.toList []

/-- Python `s.lower()` (ASCII case fold, which covers the fixed lexicons). -/
def pyLower (s : String) : String := String.mk (s.toList.map Char.toLower)

/-- `needle.isPrefixOf hay` over character lists. -/
def charsPrefixOf : List Char → List Char → Bool
  | [], _ => true
  | _ :: _, [] => false
  | a :: as, b :: bs => a == b && charsPrefixOf as bs

/-- `needle` occurs as a contiguous substring of `hay`. -/
def charsContain (needle hay : List Char) : Bool :=
  charsPrefixOf needle hay ||
    match hay with
    | [] => false
    | _ :: t => charsContain needle t

/-- Python `needle in hay` on strings (substring containment). -/
def strContainsSub (hay needle : String) : Bool :=
  charsContain needle.toList hay.toList

/-- Python `int(q)` on a float value: truncation toward zero. -/
def pyTrunc (q : ℚ) : ℤ := if q < 0 then -Rat.floor (-q) else Rat.floor q

/-- Python `a // b` on ints: floor division. -/
def pyFloorDiv (a b : ℤ) : ℤ := Int.fdiv a b

/-- Render an int the way Python's f-strings do. -/
def i2s (n : ℤ) : String := toString n

/-! ## Coordinate Mapper (`_insight_to_coordinates`, lines 29-96) -/

/-- The `sentiment_map` dictionary lookup with default `0.0` (lines 43-50). -/
def sentiment_value (sentiment : String) : ℚ :=
  if sentiment = "very_positive" then 1
  else if sentiment = "positive" then 1/2
  else if sentiment = "neutral" then 0
  else if sentiment = "negative" then -(1/2)
  else if sentiment = "very_negative" then -1
  else 0

/-- The `practical_words` lexicon (line 62). -/
def practical_words : List String :=
  ["implement", "execute", "build", "create", "develop", "deploy"]

/-- The `urgent_words` lexicon (line 71). -/
def urgent_words : List String :=
  ["immediate", "urgent", "critical", "now", "asap", "emergency"]

/-- The `complex_words` lexicon (lines 78 and 82). -/
def complex_words : List String :=
  ["complex", "difficult", "challenging", "hard", "complicated"]

/-- Python `sum(1 for word in lexicon if word in text.lower())`. -/
def countMatches (lexicon : List String) (text : String) : ℕ :=
  (lexicon.filter (fun w => strContainsSub (pyLower text) w)).length

/-- The x branch of `_insight_to_coordinates` (lines 52-66). `none` models the
`ZeroDivisionError` the `novelty` branch raises on empty content, which the
method's `except` clause later turns into the `(0, 0)` fallback. -/
def xRaw (insight_text : String) (importance sv : ℚ) (x_dimension : String) : Option ℚ :=
  if x_dimension = "importance" then some (importance * 2 - 1)
  else if x_dimension = "sentiment" then some sv
  else if x_dimension = "novelty" then
    let n := (pyTokens insight_text).length
    if n = 0 then none
    else some (min (((pyTokens insight_text).dedup.length : ℚ) / n * 2 - 1) 1)
  else if x_dimension = "practicality" then
    some ((countMatches practical_words insight_text : ℚ) / 6 * 2 - 1)
  else some ((importance + sv) / 2)

/-- The y branch of `_insight_to_coordinates` (lines 68-86); every branch is
total (the lexicon lengths are constants), so no exception can arise here. -/
def yRaw (insight_text : String) (importance sv : ℚ) (y_dimension : String) : ℚ :=
  if y_dimension = "urgency" then
    (countMatches urgent_words insight_text : ℚ) / 6 * 2 - 1
  else if y_dimension = "impact" then importance * 2 - 1
  else if y_dimension = "feasibility" then
    1 - (countMatches complex_words insight_text : ℚ) / 5 * 2
  else if y_dimension = "complexity" then
    (countMatches complex_words insight_text : ℚ) / 5 * 2 - 1
  else (importance - sv) / 2

/-- `QuadrantGenerator._insight_to_coordinates` (lines 29-96): importance is
normalized to [0,1], the dimension formulas are applied, both coordinates are
clamped to [-1,1]; any exception inside the `try` returns the center `(0, 0)`. -/
def _insight_to_coordinates (insight_text : String) (importance : ℚ)
    (sentiment x_dimension y_dimension : String) : ℚ × ℚ :=
  let imp := max 0 (min 1 importance)
  let sv := sentiment_value sentiment
  match xRaw insight_text imp sv x_dimension with
  | none => (0, 0)
  | some x0 =>
    let y0 := yRaw insight_text imp sv y_dimension
    (max (-1) (min 1 x0), max (-1) (min 1 y0))

/-! ## Insight data model and classification (`_classify_insights_to_quadrants`) -/

/-- An insight dictionary as consumed by classification: the keys read at
lines 111-113 (`point` may be absent; the normalizer always sets `content`,
`importance`, `sentiment` and `type`). -/
structure Insight where
  point : Option String := none
  content : String := ""
  importance : ℚ := 1/2
  sentiment : String := "neutral"
  itype : String := "insight"
deriving DecidableEq

/-- An insight dictionary after lines 120-122 added `x_position`,
`y_position` and `quadrant` to it. -/
structure ClassifiedInsight where
  base : Insight
  x_position : ℚ
  y_position : ℚ
  quadrant : Quadrant
deriving DecidableEq

/-- The `quadrants` dictionary `{"Q1": [], "Q2": [], "Q3": [], "Q4": []}`. -/
structure Buckets where
  q1 : List ClassifiedInsight := []
  q2 : List ClassifiedInsight := []
  q3 : List ClassifiedInsight := []
  q4 : List ClassifiedInsight := []
deriving DecidableEq

/-- `quadrants[q]`. -/
def bucketList (b : Buckets) : Quadrant → List ClassifiedInsight
  | .Q1 => b.q1 | .Q2 => b.q2 | .Q3 => b.q3 | .Q4 => b.q4

/-- `quadrants[q].append(ci)`. -/
def bucketAppend (b : Buckets) (q : Quadrant) (ci : ClassifiedInsight) : Buckets :=
  match q with
  | .Q1 => { b with q1 := b.q1 ++ [ci] }
  | .Q2 => { b with q2 := b.q2 ++ [ci] }
  | .Q3 => { b with q3 := b.q3 ++ [ci] }
  | .Q4 => { b with q4 := b.q4 ++ [ci] }

/-- Lines 110-122 of the loop body: extract the attributes, compute the
coordinates, classify, and attach the position/quadrant metadata. -/
def annotateInsight (x_dimension y_dimension : String) (i : Insight) : ClassifiedInsight :=
  let insight_text := i.point.getD i.content
  let p := _insight_to_coordinates insight_text i.importance i.sentiment x_dimension y_dimension
  { base := i, x_position := p.1, y_position := p.2,
    quadrant := _calculate_quadrant_position p.1 p.2 }

/-- Lines 124-126: append to the quadrant's bucket only below the cap. -/
def classifyStep (x_dimension y_dimension : String) (cap : ℕ)
    (b : Buckets) (i : Insight) : Buckets :=
  let ci := annotateInsight x_dimension y_dimension i
  if (bucketList b ci.quadrant).length < cap then bucketAppend b ci.quadrant ci else b

/-- `QuadrantGenerator._classify_insights_to_quadrants` (lines 98-132). The
loop body cannot raise (the coordinate mapper is total by its own fallback),
so the method's `except`/re-raise branch is unreachable in the model. -/
def _classify_insights_to_quadrants (insights : List Insight)
    (x_dimension y_dimension : String) (max_insights_per_quadrant : ℕ := 15) : Buckets :=
  insights.foldl (classifyStep x_dimension y_dimension max_insights_per_quadrant)
    { q1 := [], q2 := [], q3 := [], q4 := [] }

/-! ## Color schemes and text helpers (`_get_color_scheme`, `_truncate_text`,
`_calculate_text_position`) -/

/-- One palette of `_get_color_scheme` (lines 134-178). -/
structure ColorScheme where
  background : String
  grid : String
  axes : String
  q1_fill : String
  q2_fill : String
  q3_fill : String
  q4_fill : String
  text : String
  title : String
  insight : String
  insight_border : String
deriving DecidableEq

/-- The `professional` palette (lines 137-149). -/
def schemeProfessional : ColorScheme :=
  { background := "#ffffff", grid := "#e0e0e0", axes := "#333333",
    q1_fill := "#e3f2fd", q2_fill := "#f3e5f5", q3_fill := "#fff3e0",
    q4_fill := "#e8f5e8", text := "#333333", title := "#1a1a1a",
    insight := "#1976d2", insight_border := "#0d47a1" }

/-- The `vibrant` palette (lines 150-162). -/
def schemeVibrant : ColorScheme :=
  { background := "#fafafa", grid := "#bdbdbd", axes := "#212121",
    q1_fill := "#ff9800", q2_fill := "#2196f3", q3_fill := "#4caf50",
    q4_fill := "#f44336", text := "#212121", title := "#000000",
    insight := "#7b1fa2", insight_border := "#4a148c" }

/-- The `monochrome` palette (lines 163-175). -/
def schemeMonochrome : ColorScheme :=
  { background := "#ffffff", grid := "#cccccc", axes := "#666666",
    q1_fill := "#f5f5f5", q2_fill := "#e0e0e0", q3_fill := "#d0d0d0",
    q4_fill := "#c0c0c0", text := "#333333", title := "#000000",
    insight := "#555555", insight_border := "#333333" }

/-- `QuadrantGenerator._get_color_scheme` (lines 134-178): lookup with
fallback to `professional`. -/
def _get_color_scheme (scheme : String) : ColorScheme :=
  if scheme = "professional" then schemeProfessional
  else if scheme = "vibrant" then schemeVibrant
  else if scheme = "monochrome" then schemeMonochrome
  else schemeProfessional

/-- `QuadrantGenerator._truncate_text` (lines 180-184). -/
def _truncate_text (text : String) (max_length : ℕ := 50) : String :=
  if text.length ≤ max_length then text
  else String.mk (text.toList.take (max_length - 3)) ++ "..."

/-- `QuadrantGenerator._calculate_text_position` (lines 186-203): normalized
coordinates to pixels, y flipped, `int(...)` truncating. -/
def _calculate_text_position (x y : ℚ) (width height : ℤ) (padding : ℤ := 50) : ℤ × ℤ :=
  let center_x := pyFloorDiv width 2
  let center_y := pyFloorDiv height 2
  (center_x + pyTrunc (x * ((pyFloorDiv width 2 - padding : ℤ) : ℚ)),
   center_y - pyTrunc (y * ((pyFloorDiv height 2 - padding : ℤ) : ℚ)))

/-! ## Configuration records -/

/-- An axis configuration dictionary (`x_axis` / `y_axis`). -/
structure AxisConfig where
  label : Option String := none
  min_label : Option String := none
  max_label : Option String := none
  dimension : Option String := none
deriving DecidableEq

/-- The `quadrant_config` dictionary. `Option` fields model absent keys; an
absent or falsy axis sub-dictionary is modelled as `none`. -/
structure QuadrantConfig where
  x_axis : Option AxisConfig := none
  y_axis : Option AxisConfig := none
  quadrant_labels : Option (List String) := none
  title : Option String := none
deriving DecidableEq

/-- A `visualization_options` dictionary as passed in (keys possibly absent). -/
structure VisOptionsIn where
  width : Option ℤ := none
  height : Option ℤ := none
  color_scheme : Option String := none
  show_legend : Option Bool := none
  show_grid : Option Bool := none
  show_labels : Option Bool := none
deriving DecidableEq

/-- The options dictionary after `{**default_options, **options}` (lines
448-457): every recognized key present. -/
structure VisOptions where
  width : ℤ := 500
  height : ℤ := 500
  color_scheme : String := "professional"
  show_legend : Bool := true
  show_grid : Bool := true
  show_labels : Bool := true
deriving DecidableEq

/-- The defaults merge `{**default_options, **options}`. -/
def mergeOptions (o : VisOptionsIn) : VisOptions :=
  { width := o.width.getD 500, height := o.height.getD 500,
    color_scheme := o.color_scheme.getD "professional",
    show_legend := o.show_legend.getD true, show_grid := o.show_grid.getD true,
    show_labels := o.show_labels.getD true }

/-! ## Layout & Renderer (`_generate_svg_quadrant`, lines 205-379) -/

/-- Line 343: `font_size = max(8, int(10 + importance * 4))`. -/
def font_size (importance : ℚ) : ℤ := max 8 (pyTrunc (10 + importance * 4))

/-- Line 344: `circle_size = max(3, int(4 + importance * 4))`. -/
def circle_size (importance : ℚ) : ℤ := max 3 (pyTrunc (4 + importance * 4))

/-- The `(x1, y1, x2, y2)` rectangle of one quadrant (lines 254-259). -/
def quadrantCoords (center_x center_y padding dw2 dh2 : ℤ) : Quadrant → ℤ × ℤ × ℤ × ℤ
  | .Q1 => (center_x, padding, center_x + dw2, center_y)
  | .Q2 => (padding, padding, center_x, center_y)
  | .Q3 => (padding, center_y, center_x, center_y + dh2)
  | .Q4 => (center_x, center_y, center_x + dw2, center_y + dh2)

/-- The quadrant fill colors dictionary (lines 261-266). -/
def quadrantColor (cs : ColorScheme) : Quadrant → String
  | .Q1 => cs.q1_fill | .Q2 => cs.q2_fill | .Q3 => cs.q3_fill | .Q4 => cs.q4_fill

/-- `QuadrantGenerator._generate_svg_quadrant` (lines 205-379): the `svg_parts`
list in source order, joined with a newline. All numeric attribute values are
`int`s in the source, so their f-string renderings are exact here; the `try`
cannot fail (no branch raises), so the `except`/re-raise is unreachable. -/
def _generate_svg_quadrant (quadrants : Buckets) (config : QuadrantConfig)
    (options : VisOptions) : String :=
  let width := options.width
  let height := options.height
  let color_scheme := _get_color_scheme options.color_scheme
  let show_grid := options.show_grid
  let show_legend := options.show_legend
  let show_labels := options.show_labels
  let title := config.title.getD "Quadrant Analysis"
  let x_axis := config.x_axis.getD {}
  let y_axis := config.y_axis.getD {}
  let quadrant_labels := config.quadrant_labels.getD ["Q1", "Q2", "Q3", "Q4"]
  let header : List String :=
    [ "<svg xmlns=\"http://www.w3.org/2000/svg\" width=\"" ++ i2s width ++
        "\" height=\"" ++ i2s height ++ "\" viewBox=\"0 0 " ++ i2s width ++ " " ++
        i2s height ++ "\">",
      "<rect width=\"" ++ i2s width ++ "\" height=\"" ++ i2s height ++
        "\" fill=\"" ++ color_scheme.background ++ "\"/>",
      "<defs>",
      "<style>",
      "  .title \x7b font-family: Arial, sans-serif; font-size: 16px; font-weight: bold; \x7d",
      "  .axis-label \x7b font-family: Arial, sans-serif; font-size: 12px; fill: #666; \x7d",
      "  .quadrant-label \x7b font-family: Arial, sans-serif; font-size: 14px; font-weight: bold; \x7d",
      "  .insight \x7b font-family: Arial, sans-serif; font-size: 10px; \x7d",
      "  .grid-line \x7b stroke: #e0e0e0; stroke-width: 1; stroke-dasharray: 2,2; \x7d",
      "  .axis-line \x7b stroke: #333; stroke-width: 2; \x7d",
      "</style>",
      "</defs>" ]
  let titleParts : List String :=
    if title ≠ "" then
      [ "<text x=\"" ++ i2s (pyFloorDiv width 2) ++
          "\" y=\"25\" text-anchor=\"middle\" class=\"title\" fill=\"" ++
          color_scheme.title ++ "\">" ++ title ++ "</text>" ]
    else []
  let padding : ℤ := 60
  let drawable_width := width - 2 * padding
  let drawable_height := height - 2 * padding
  let center_x := pyFloorDiv width 2
  let center_y := pyFloorDiv height 2
  let quadrantRects : List String :=
    quadrantOrder.map (fun q =>
      let r := quadrantCoords center_x center_y padding
        (pyFloorDiv drawable_width 2) (pyFloorDiv drawable_height 2) q
      let opacity := if (bucketList quadrants q).isEmpty then "0.1" else "0.3"
      "<rect x=\"" ++ i2s r.1 ++ "\" y=\"" ++ i2s r.2.1 ++ "\" width=\"" ++
        i2s (r.2.2.1 - r.1) ++ "\" height=\"" ++ i2s (r.2.2.2 - r.2.1) ++
        "\" fill=\"" ++ quadrantColor color_scheme q ++ "\" opacity=\"" ++ opacity ++ "\"/>")
  let gridParts : List String :=
    if show_grid then
      [ "<line x1=\"" ++ i2s center_x ++ "\" y1=\"" ++ i2s padding ++ "\" x2=\"" ++
          i2s center_x ++ "\" y2=\"" ++ i2s (height - padding) ++ "\" class=\"grid-line\"/>",
        "<line x1=\"" ++ i2s padding ++ "\" y1=\"" ++ i2s center_y ++ "\" x2=\"" ++
          i2s (width - padding) ++ "\" y2=\"" ++ i2s center_y ++ "\" class=\"grid-line\"/>" ]
    else []
  let axesParts : List String :=
    [ "<line x1=\"" ++ i2s padding ++ "\" y1=\"" ++ i2s center_y ++ "\" x2=\"" ++
        i2s (width - padding) ++ "\" y2=\"" ++ i2s center_y ++ "\" class=\"axis-line\"/>",
      "<line x1=\"" ++ i2s center_x ++ "\" y1=\"" ++ i2s padding ++ "\" x2=\"" ++
        i2s center_x ++ "\" y2=\"" ++ i2s (height - padding) ++ "\" class=\"axis-line\"/>" ]
  let arrow_size : ℤ := 8
  let arrowParts : List String :=
    [ "<polygon points=\"" ++ i2s (width - padding) ++ "," ++ i2s center_y ++ " " ++
        i2s (width - padding - arrow_size) ++ "," ++ i2s (center_y - pyFloorDiv arrow_size 2) ++
        " " ++ i2s (width - padding - arrow_size) ++ "," ++
        i2s (center_y + pyFloorDiv arrow_size 2) ++ "\" fill=\"" ++ color_scheme.axes ++ "\"/>",
      "<polygon points=\"" ++ i2s center_x ++ "," ++ i2s padding ++ " " ++
        i2s (center_x - pyFloorDiv arrow_size 2) ++ "," ++ i2s (padding + arrow_size) ++
        " " ++ i2s (center_x + pyFloorDiv arrow_size 2) ++ "," ++ i2s (padding + arrow_size) ++
        "\" fill=\"" ++ color_scheme.axes ++ "\"/>" ]
  let labelParts : List String :=
    if show_labels then
      let x_label := x_axis.label.getD "X Axis"
      let x_min_label := x_axis.min_label.getD "Low"
      let x_max_label := x_axis.max_label.getD "High"
      let y_label := y_axis.label.getD "Y Axis"
      let y_min_label := y_axis.min_label.getD "Low"
      let y_max_label := y_axis.max_label.getD "High"
      [ "<text x=\"" ++ i2s (width - padding) ++ "\" y=\"" ++ i2s (center_y + 20) ++
          "\" text-anchor=\"end\" class=\"axis-label\">" ++ x_max_label ++ "</text>",
        "<text x=\"" ++ i2s center_x ++ "\" y=\"" ++ i2s (height - 20) ++
          "\" text-anchor=\"middle\" class=\"axis-label\">" ++ x_label ++ "</text>",
        "<text x=\"" ++ i2s padding ++ "\" y=\"" ++ i2s (center_y + 20) ++
          "\" text-anchor=\"start\" class=\"axis-label\">" ++ x_min_label ++ "</text>",
        "<text x=\"" ++ i2s (center_x - 20) ++ "\" y=\"" ++ i2s (padding + 10) ++
          "\" text-anchor=\"end\" class=\"axis-label\">" ++ y_max_label ++ "</text>",
        "<text x=\"20\" y=\"" ++ i2s center_y ++
          "\" text-anchor=\"middle\" transform=\"rotate(-90 20 " ++ i2s center_y ++
          ")\" class=\"axis-label\">" ++ y_label ++ "</text>",
        "<text x=\"" ++ i2s (center_x - 20) ++ "\" y=\"" ++ i2s (height - padding) ++
          "\" text-anchor=\"end\" class=\"axis-label\">" ++ y_min_label ++ "</text>" ] ++
      (if quadrant_labels.length = 4 then
        (List.enum
          [ (width - padding - 40, padding + 20),
            (padding + 40, padding + 20),
            (padding + 40, height - padding - 20),
            (width - padding - 40, height - padding - 20) ]).map (fun p =>
          "<text x=\"" ++ i2s p.2.1 ++ "\" y=\"" ++ i2s p.2.2 ++
            "\" text-anchor=\"middle\" class=\"quadrant-label\">" ++
            (quadrant_labels.getD p.1 "") ++ "</text>")
      else [])
    else []
  let insightParts : List String :=
    quadrantOrder.flatMap (fun q =>
      (bucketList quadrants q).flatMap (fun insight =>
        let x_pos := insight.x_position
        let y_pos := insight.y_position
        let text := insight.base.point.getD insight.base.content
        let importance := insight.base.importance
        let pix := _calculate_text_position x_pos y_pos width height padding
        let display_text := _truncate_text text 40
        let fs := font_size importance
        let cr := circle_size importance
        [ "<circle cx=\"" ++ i2s pix.1 ++ "\" cy=\"" ++ i2s pix.2 ++ "\" r=\"" ++
            i2s cr ++ "\" fill=\"" ++ color_scheme.insight ++ "\" stroke=\"" ++
            color_scheme.insight_border ++ "\" stroke-width=\"1\"/>",
          "<text x=\"" ++ i2s (pix.1 + cr + 2) ++ "\" y=\"" ++ i2s (pix.2 + 3) ++
            "\" class=\"insight\" fill=\"" ++ color_scheme.text ++ "\">" ++
            display_text ++ "</text>" ]))
  let legendParts : List String :=
    if show_legend then
      let legend_y := height - 40
      let legend_x := padding
      [ "<g transform=\"translate(0, -10)\">",
        "<text x=\"" ++ i2s legend_x ++ "\" y=\"" ++ i2s legend_y ++
          "\" class=\"axis-label\">Quadrants:</text>" ] ++
      (List.enum (quadrantOrder.zip (quadrant_labels.take 4))).flatMap (fun p =>
        let x_pos := legend_x + 80 + (p.1 : ℤ) * 100
        [ "<rect x=\"" ++ i2s x_pos ++ "\" y=\"" ++ i2s (legend_y - 8) ++
            "\" width=\"12\" height=\"12\" fill=\"" ++
            quadrantColor color_scheme p.2.1 ++ "\" opacity=\"0.5\"/>",
          "<text x=\"" ++ i2s (x_pos + 16) ++ "\" y=\"" ++ i2s legend_y ++
            "\" class=\"axis-label\">" ++ p.2.2 ++ "</text>" ]) ++
      [ "</g>" ]
    else []
  String.intercalate "\n"
    (header ++ titleParts ++ quadrantRects ++ gridParts ++ axesParts ++ arrowParts ++
      labelParts ++ insightParts ++ legendParts ++ [ "</svg>" ])

/-! ## Summary Calculator (`_calculate_quadrant_summary`, lines 381-428) -/

/-- Line 389: `max(quadrants.keys(), key=lambda q: len(quadrants[q]))`, which
keeps the first key attaining the maximum in iteration order Q1,Q2,Q3,Q4. -/
def dominant_quadrant (quadrants : Buckets) : Quadrant :=
  [Quadrant.Q2, Quadrant.Q3, Quadrant.Q4].foldl
    (fun best q =>
      if (bucketList quadrants best).length < (bucketList quadrants q).length then q
      else best)
    Quadrant.Q1

/-- The canned recommendation keyed off the dominant quadrant (lines 400-408). -/
def recommendationFor : Quadrant → String
  | .Q1 => "Focus on strategic initiatives that require significant investment"
  | .Q2 => "Prioritize quick wins that deliver high value"
  | .Q3 => "Consider if low-effort items are worth pursuing"
  | .Q4 => "Reevaluate high-effort, low-impact activities"

/-- The summary dictionary returned at lines 410-417. -/
structure Summary where
  total_insights : ℕ
  dominant_quadrant : Option Quadrant
  analysis_title : String
  key_findings : List String
  recommendations : List String
  quadrant_counts : List (Quadrant × ℕ)
deriving DecidableEq

/-- `QuadrantGenerator._calculate_quadrant_summary` (lines 381-428). The
`quadrants` dictionary always carries its four keys, so the `if quadrants`
guard holds and the `except` branch (zeroed summary) is unreachable. -/
def _calculate_quadrant_summary (quadrants : Buckets) (config : QuadrantConfig) : Summary :=
  { total_insights := quadrantOrder.foldl (fun acc q => acc + (bucketList quadrants q).length) 0
  , dominant_quadrant := some (dominant_quadrant quadrants)
  , analysis_title := config.title.getD "Quadrant Analysis"
  , key_findings := quadrantOrder.filterMap (fun q =>
      if (bucketList quadrants q).isEmpty then none
      else some ("Quadrant " ++ qname q ++ " contains " ++
        toString (bucketList quadrants q).length ++ " insights"))
  , recommendations := [recommendationFor (dominant_quadrant quadrants)]
  , quadrant_counts := quadrantOrder.map (fun q => (q, (bucketList quadrants q).length)) }

/-! ## Insight Normalizer and output formatting (`generate_quadrant_analysis`,
quadrant_generator.py lines 430-595) -/

/-- One entry of `insights["key_points"]` (keys read at lines 468-474). -/
structure KeyPoint where
  point : Option String := none
  importance : Option ℚ := none
  sentiment : Option String := none
deriving DecidableEq

/-- One entry of `insights["main_topics"]` (keys read at lines 477-483). -/
structure Topic where
  topic : Option String := none
  relevance : Option ℚ := none
deriving DecidableEq

/-- One entry of `insights["entities"]` (keys read at lines 486-492). -/
structure Entity where
  entity : Option String := none
  frequency : Option ℚ := none
deriving DecidableEq

/-- The `insights` dictionary (keys read at lines 460-462, absent keys
defaulting to empty lists). -/
structure InsightsInput where
  key_points : List KeyPoint := []
  main_topics : List Topic := []
  entities : List Entity := []
deriving DecidableEq

/-- Lines 464-492: build `all_insights` from key points, topics and the first
ten entities, in that order. -/
def normalizeInsights (ins : InsightsInput) : List Insight :=
  (ins.key_points.map (fun p =>
    { point := none, content := p.point.getD "", importance := p.importance.getD (1/2),
      sentiment := p.sentiment.getD "neutral", itype := "key_point" }))
  ++ (ins.main_topics.map (fun t =>
    { point := none, content := "Topic: " ++ t.topic.getD "",
      importance := t.relevance.getD (1/2),
      sentiment := "neutral", itype := "topic" }))
  ++ ((ins.entities.take 10).map (fun e =>
    { point := none, content := "Entity: " ++ e.entity.getD "",
      importance := min ((e.frequency.getD 1) / 10) 1,
      sentiment := "neutral", itype := "entity" }))

/-- One rendered insight inside a quadrant entry (lines 547-557). -/
structure OutInsight where
  content : String
  x_position : ℚ
  y_position : ℚ
  quadrant : Quadrant
  weight : ℚ
  importance : ℚ
  category : String
deriving DecidableEq

/-- One entry of the `quadrant_data` list (lines 544-561). -/
structure QuadrantData where
  quadrant : Quadrant
  label : String
  insights : List OutInsight
  count : ℕ
  dominant_theme : Option String
deriving DecidableEq

/-- One step of the ordered word-frequency table build (lines 536-539): first
occurrence fixes the position, later occurrences bump the count. -/
def bumpFreq : List (String × ℕ) → String → List (String × ℕ)
  | [], w => [(w, 1)]
  | (k, c) :: rest, w =>
    if k = w then (k, c + 1) :: rest else (k, c) :: bumpFreq rest w

/-- `max(word_freq, key=word_freq.get)` (line 542): the first key attaining
the maximal count, in insertion order. -/
def argmaxFirst : List (String × ℕ) → Option String
  | [] => none
  | (w, c) :: rest =>
    some ((rest.foldl (fun best p => if best.2 < p.2 then p else best) (w, c)).1)

/-- The per-quadrant dominant-theme heuristic (lines 527-542): lowercased
whitespace tokens of the first five insights' `content`, keep words longer
than three characters, argmax of the ordered frequency table. -/
def dominantTheme (insights : List ClassifiedInsight) : Option String :=
  match insights with
  | [] => none
  | _ =>
    let content_words := (insights.take 5).flatMap (fun ci => pyTokens (pyLower ci.base.content))
    if content_words.isEmpty then none
    else argmaxFirst ((content_words.filter (fun w => 3 < w.length)).foldl bumpFreq [])

/-- Lines 520-561: format the four quadrant entries for the output. -/
def formatQuadrantData (quadrants : Buckets) (config : QuadrantConfig) : List QuadrantData :=
  let quadrant_labels := config.quadrant_labels.getD ["Q1", "Q2", "Q3", "Q4"]
  (List.enum quadrantOrder).map (fun p =>
    let q := p.2
    let insights := bucketList quadrants q
    { quadrant := q
    , label := if p.1 < quadrant_labels.length then quadrant_labels.getD p.1 "" else qname q
    , insights := insights.map (fun ci =>
        { content := ci.base.content, x_position := ci.x_position,
          y_position := ci.y_position, quadrant := q, weight := ci.base.importance,
          importance := ci.base.importance, category := ci.base.itype })
    , count := insights.length
    , dominant_theme := dominantTheme insights })

/-- The `quadrant_analysis` result dictionary (lines 564-570). -/
structure QuadrantAnalysisResult where
  svg_content : String
  quadrants : List QuadrantData
  summary : Summary
  config_used : QuadrantConfig
  visualization_options : VisOptions
deriving DecidableEq

/-- The uniform envelope both entry points return: a success payload, or the
structured error dictionary `handle_error` builds from a caught exception
(`error.type` is the exception class name, `error.message` its text).
Wall-clock metadata (timestamps, processing_time) is abstracted away. -/
inductive GenResult where
  | success (analysis : QuadrantAnalysisResult) (insights_processed : ℕ)
  | failure (error_type : String) (message : String)
deriving DecidableEq

/-- Line 500: `x_dimension = x_axis.get("dimension", "importance")` over
`x_axis = quadrant_config.get("x_axis", {})`. -/
def xDimensionOf (cfg : QuadrantConfig) : String :=
  (cfg.x_axis.getD {}).dimension.getD "importance"

/-- Line 501: `y_dimension = y_axis.get("dimension", "impact")`. -/
def yDimensionOf (cfg : QuadrantConfig) : String :=
  (cfg.y_axis.getD {}).dimension.getD "impact"

/-- `QuadrantGenerator.generate_quadrant_analysis` (lines 430-595). `none` for
`insights` or `quadrant_config` models a falsy or non-dictionary argument
(the `not x or not isinstance(x, dict)` guards); raised exceptions are caught
by the method's `except` clause and surfaced through `handle_error` as a
structured failure, modelled by `GenResult.failure`. -/
def generate_quadrant_analysis (insights : Option InsightsInput)
    (quadrant_config : Option QuadrantConfig)
    (visualization_options : Option VisOptionsIn := none) : GenResult :=
  match insights with
  | none => .failure "ValidationError" "Insights data is required and must be a dictionary"
  | some ins =>
    match quadrant_config with
    | none =>
      .failure "ValidationError" "Quadrant configuration is required and must be a dictionary"
    | some cfg =>
      let options := mergeOptions (visualization_options.getD {})
      let all_insights := normalizeInsights ins
      if all_insights.isEmpty then
        .failure "QuadrantGenerationError" "No insights available for quadrant analysis"
      else
        let x_dimension := xDimensionOf cfg
        let y_dimension := yDimensionOf cfg
        let quadrants := _classify_insights_to_quadrants all_insights x_dimension y_dimension 15
        let svg_content := _generate_svg_quadrant quadrants cfg options
        let summary := _calculate_quadrant_summary quadrants cfg
        let quadrant_data := formatQuadrantData quadrants cfg
        .success
          { svg_content := svg_content, quadrants := quadrant_data, summary := summary,
            config_used := cfg, visualization_options := options }
          all_insights.length

/-! ## Tool entry point (`tools/generate_quadrant.py`, lines 25-319) -/

/-- A value supplied for `width`/`height`: a Python int, or any value that is
not an int (`isinstance(width, int)` fails). -/
inductive PyIntVal where
  | int (n : ℤ)
  | nonint
deriving DecidableEq

/-- The tool-level `visualization_options` argument (keys possibly absent,
width/height possibly non-integers). -/
structure ToolVisOptions where
  width : Option PyIntVal := none
  height : Option PyIntVal := none
  color_scheme : Option String := none
  show_legend : Option Bool := none
  show_grid : Option Bool := none
  show_labels : Option Bool := none
deriving DecidableEq

/-- The width/height validation predicate of lines 220 and 231:
`isinstance(v, int) and 300 <= v <= 1000`. -/
def pyIntOk (v : PyIntVal) : Bool :=
  match v with
  | .int n => 300 ≤ n && n ≤ 1000
  | .nonint => false

/-- The tool `generate_quadrant_analysis` (generate_quadrant.py lines
25-319): eager validation in source order, then delegation to the generator,
then the success/error envelope standardization. `none` models a
non-dictionary argument where the source checks `isinstance(..., dict)` (and
a falsy or non-dictionary axis value at lines 160-180). -/
def tool_generate_quadrant_analysis (insights : Option InsightsInput)
    (quadrant_config : Option QuadrantConfig)
    (visualization_options : ToolVisOptions := {}) : GenResult :=
  match insights with
  | none => .failure "ValidationError" "Insights must be a dictionary"
  | some ins =>
    if ins.key_points.isEmpty && ins.main_topics.isEmpty && ins.entities.isEmpty then
      .failure "ValidationError"
        "Insights must contain at least one of: key_points, main_topics, entities"
    else
      match quadrant_config with
      | none => .failure "ValidationError" "Quadrant configuration must be a dictionary"
      | some cfg =>
        match cfg.x_axis with
        | none =>
          .failure "ValidationError" "Quadrant configuration must include \x27x_axis\x27"
        | some xa =>
          match cfg.y_axis with
          | none =>
            .failure "ValidationError" "Quadrant configuration must include \x27y_axis\x27"
          | some ya =>
            if xa.label.getD "" = "" then
              .failure "ValidationError" "X-axis must have a \x27label\x27"
            else if ya.label.getD "" = "" then
              .failure "ValidationError" "Y-axis must have a \x27label\x27"
            else
              let w := visualization_options.width.getD (.int 500)
              let h := visualization_options.height.getD (.int 500)
              if !pyIntOk w then
                .failure "ValidationError" "Width must be an integer between 300 and 1000"
              else if !pyIntOk h then
                .failure "ValidationError" "Height must be an integer between 300 and 1000"
              else
                let wn : ℤ := match w with | .int n => n | .nonint => 500
                let hn : ℤ := match h with | .int n => n | .nonint => 500
                let vo : VisOptionsIn :=
                  { width := some wn, height := some hn,
                    color_scheme := some (visualization_options.color_scheme.getD "professional"),
                    show_legend := some (visualization_options.show_legend.getD true),
                    show_grid := some (visualization_options.show_grid.getD true),
                    show_labels := some (visualization_options.show_labels.getD true) }
                match generate_quadrant_analysis (some ins) (some cfg) (some vo) with
                | .success a n =>
                  if a.svg_content = "" then
                    .failure "GenerationError" "Failed to generate SVG visualization"
                  else .success a n
                | .failure t m => .failure t m

/-! ## Projections and sample inputs used by the statements -/

/-- The `svg_content` a caller observes: `some` on success, `none` on failure. -/
def svgOf : GenResult → Option String
  | .success a _ => some a.svg_content
  | .failure _ _ => none

/-- The `summary.quadrant_counts` a caller observes. -/
def countsOf : GenResult → Option (List (Quadrant × ℕ))
  | .success a _ => some a.summary.quadrant_counts
  | .failure _ _ => none

/-- Rounding to the nearest integer (halves up), the reading of `round` in the
spec sentence on marker sizing; used only to compare the spec formula with the
source's `int(...)` truncation. -/
def specRound (q : ℚ) : ℤ := Rat.floor (q + 1/2)

/-- A key-point insight that lands in Q1 under dimensions
importance/impact (importance 1 gives coordinates (1, 1)). -/
def c3SampleInsight : Insight :=
  { content := "w", importance := 1, sentiment := "neutral", itype := "key_point" }

/-- Twenty copies of `c3SampleInsight`, all mapping to Q1. -/
def c3SampleList : List Insight := List.replicate 20 c3SampleInsight

/-- A bucket state with sizes Q1:2, Q2:2, Q3:0, Q4:0. -/
def c7SampleBuckets : Buckets :=
  { q1 := [⟨{}, 0, 0, .Q1⟩, ⟨{}, 0, 0, .Q1⟩]
  , q2 := [⟨{}, 0, 0, .Q2⟩, ⟨{}, 0, 0, .Q2⟩]
  , q3 := [], q4 := [] }

/-- A non-empty insights argument for exercising the tool validations. -/
def c9SampleInsights : InsightsInput :=
  { key_points := [{ point := some "Implement it", importance := some (9/10),
                     sentiment := some "positive" }] }

/-- A configuration whose axes carry labels (passing the label validations)
but no `dimension` keys. -/
def c9SampleConfig : QuadrantConfig :=
  { x_axis := some { label := some "Impact" }, y_axis := some { label := some "Effort" } }

/-! ## Claims -/

/-- C1: `_calculate_quadrant_position` assigns Q1 iff x>0 and y>0, Q2 iff
x≤0 and y>0, Q3 iff x≤0 and y≤0 and Q4 iff x>0 and y≤0; in particular
classify(0,0)=Q3, classify(0,0.5)=Q2, classify(0.5,0)=Q4 and
classify(-0.001,0.001)=Q2. -/
theorem C1_quadrant_classifier :
    (∀ x y : ℚ,
      (x > 0 ∧ y > 0 → _calculate_quadrant_position x y = Quadrant.Q1) ∧
      (x ≤ 0 ∧ y > 0 → _calculate_quadrant_position x y = Quadrant.Q2) ∧
      (x ≤ 0 ∧ y ≤ 0 → _calculate_quadrant_position x y = Quadrant.Q3) ∧
      (x > 0 ∧ y ≤ 0 → _calculate_quadrant_position x y = Quadrant.Q4)) ∧
    _calculate_quadrant_position 0 0 = Quadrant.Q3 ∧
    _calculate_quadrant_position 0 (1/2) = Quadrant.Q2 ∧
    _calculate_quadrant_position (1/2) 0 = Quadrant.Q4 ∧
    _calculate_quadrant_position (-(1/1000)) (1/1000) = Quadrant.Q2 := by
  have hgen : ∀ x y : ℚ,
      (x > 0 ∧ y > 0 → _calculate_quadrant_position x y = Quadrant.Q1) ∧
      (x ≤ 0 ∧ y > 0 → _calculate_quadrant_position x y = Quadrant.Q2) ∧
      (x ≤ 0 ∧ y ≤ 0 → _calculate_quadrant_position x y = Quadrant.Q3) ∧
      (x > 0 ∧ y ≤ 0 → _calculate_quadrant_position x y = Quadrant.Q4) := by
    intro x y
    refine ⟨?_, ?_, ?_, ?_⟩
    · rintro ⟨hx, hy⟩
      unfold _calculate_quadrant_position
      rw [if_pos ⟨hx, hy⟩]
    · rintro ⟨hx, hy⟩
      unfold _calculate_quadrant_position
      rw [if_neg (fun h => absurd h.1 (not_lt.mpr hx)), if_pos ⟨hx, hy⟩]
    · rintro ⟨hx, hy⟩
      unfold _calculate_quadrant_position
      rw [if_neg (fun h => absurd h.1 (not_lt.mpr hx)),
          if_neg (fun h => absurd h.2 (not_lt.mpr hy)), if_pos ⟨hx, hy⟩]
    · rintro ⟨hx, hy⟩
      unfold _calculate_quadrant_position
      rw [if_neg (fun h => absurd h.2 (not_lt.mpr hy)),
          if_neg (fun h => absurd hx (not_lt.mpr h.1)),
          if_neg (fun h => absurd hx (not_lt.mpr h.1))]
  refine ⟨hgen, (hgen 0 0).2.2.1 ⟨le_refl 0, le_refl 0⟩,
    (hgen 0 (1/2)).2.1 ⟨le_refl 0, by norm_num⟩,
    (hgen (1/2) 0).2.2.2 ⟨by norm_num, le_refl 0⟩,
    (hgen (-(1/1000)) (1/1000)).2.1 ⟨by norm_num, by norm_num⟩⟩

/-- C2: for every content string, importance and sentiment label, and every
choice of x and y dimension names, `_insight_to_coordinates` returns a pair
inside [-1,1]² — including an empty content string and importance values
outside [0,1] before normalization. -/
theorem C2_mapper_clamped (insight_text : String) (importance : ℚ)
    (sentiment x_dimension y_dimension : String) :
    -1 ≤ (_insight_to_coordinates insight_text importance sentiment x_dimension y_dimension).1 ∧
    (_insight_to_coordinates insight_text importance sentiment x_dimension y_dimension).1 ≤ 1 ∧
    -1 ≤ (_insight_to_coordinates insight_text importance sentiment x_dimension y_dimension).2 ∧
    (_insight_to_coordinates insight_text importance sentiment x_dimension y_dimension).2 ≤ 1 := by
  simp only [_insight_to_coordinates]
  rcases hx : xRaw insight_text (max 0 (min 1 importance)) (sentiment_value sentiment) x_dimension
    with _ | x0
  · simp only [hx]
    norm_num
  · simp only [hx]
    exact ⟨le_max_left _ _, max_le (by norm_num) (min_le_left _ _),
      le_max_left _ _, max_le (by norm_num) (min_le_left _ _)⟩

/-- C5 counterexample: with x-dimension `novelty` and empty content the
returned x coordinate is 0 (the caught-exception fallback to the center),
not -1 as the claim states. -/
theorem C5_novelty_counterexample :
    (_insight_to_coordinates "" (1/2) "neutral" "novelty" "impact").1 = 0 ∧
    (_insight_to_coordinates "" (1/2) "neutral" "novelty" "impact").1 ≠ -1 := by
  have hx : xRaw "" (max 0 (min 1 (1/2))) (sentiment_value "neutral") "novelty" = none := by
    unfold xRaw
    rw [if_neg (by decide), if_neg (by decide), if_pos rfl]
    have htok : pyTokens "" = [] := rfl
    rw [htok]
    rfl
  simp only [_insight_to_coordinates]
  rw [hx]
  norm_num

/-- C5 amended: with x-dimension `novelty` and empty content, `content.split()`
is empty, so the division inside the `novelty` branch raises
`ZeroDivisionError`; the mapper's blanket `except` catches it and returns the
center `(0, 0)` — no divide-by-zero error propagates, but the returned x
coordinate is 0, not -1. -/
theorem C5_empty_novelty_fallback (importance : ℚ) (sentiment y_dimension : String) :
    _insight_to_coordinates "" importance sentiment "novelty" y_dimension = (0, 0) := by
  have hx : xRaw "" (max 0 (min 1 importance)) (sentiment_value sentiment) "novelty" = none := by
    unfold xRaw
    rw [if_neg (by decide), if_neg (by decide), if_pos rfl]
    have htok : pyTokens "" = [] := rfl
    rw [htok]
    rfl
  simp only [_insight_to_coordinates]
  rw [hx]

/-- C6 counterexample: at importance 0.4 the source's
`max(3, int(4 + importance*4))` gives radius 5, while the claimed
`max(3, round(4 + importance*4))` gives 6. -/
theorem C6_sizing_counterexample :
    circle_size (2/5) = 5 ∧ circle_size (2/5) ≠ max 3 (specRound (4 + (2/5) * 4)) := by
  have h1 : circle_size (2/5) = 5 := by norm_num [circle_size, pyTrunc, Rat.floor]
  have h2 : max 3 (specRound (4 + (2/5 : ℚ) * 4)) = 6 := by norm_num [specRound, Rat.floor]
  exact ⟨h1, by rw [h1, h2]; decide⟩

/-- C6 amended: the marker radius is `max(3, int(4 + importance*4))` and the
computed label font size `max(8, int(10 + importance*4))`, with Python `int`
truncating toward zero rather than rounding to nearest; a zero-importance
insight still gets radius 4 and font size 10, and the floors 3 and 8 are
never undercut. -/
theorem C6_marker_sizing (importance : ℚ) :
    circle_size importance = max 3 (pyTrunc (4 + importance * 4)) ∧
    font_size importance = max 8 (pyTrunc (10 + importance * 4)) ∧
    circle_size 0 = 4 ∧ font_size 0 = 10 ∧
    3 ≤ circle_size importance ∧ 8 ≤ font_size importance :=
  ⟨rfl, rfl, by norm_num [circle_size, pyTrunc, Rat.floor],
    by norm_num [font_size, pyTrunc, Rat.floor], le_max_left _ _, le_max_left _ _⟩

/-- Helper for C3: a fold of `classifyStep` over insights that all classify to
Q1 appends annotated insights to the Q1 bucket until the cap is reached and
then drops the rest, leaving the other buckets untouched. -/
theorem classify_all_q1_aux (x_dimension y_dimension : String) (cap : ℕ)
    (l : List Insight) (acc : List ClassifiedInsight)
    (h : ∀ i ∈ l, (annotateInsight x_dimension y_dimension i).quadrant = Quadrant.Q1) :
    l.foldl (classifyStep x_dimension y_dimension cap)
        { q1 := acc, q2 := [], q3 := [], q4 := [] } =
      { q1 := acc ++ (l.take (cap - acc.length)).map (annotateInsight x_dimension y_dimension),
        q2 := [], q3 := [], q4 := [] } := by
  induction l generalizing acc with
  | nil => simp
  | cons a t ih =>
    have ha := h a (List.mem_cons_self a t)
    have ht : ∀ i ∈ t, (annotateInsight x_dimension y_dimension i).quadrant = Quadrant.Q1 :=
      fun i hi => h i (List.mem_cons_of_mem a hi)
    simp only [List.foldl_cons]
    by_cases hlen : acc.length < cap
    · have hstep : classifyStep x_dimension y_dimension cap
          { q1 := acc, q2 := [], q3 := [], q4 := [] } a =
          { q1 := acc ++ [annotateInsight x_dimension y_dimension a],
            q2 := [], q3 := [], q4 := [] } := by
        simp only [classifyStep, ha, bucketList, bucketAppend]
        rw [if_pos hlen]
      rw [hstep, ih _ ht]
      simp only [Buckets.mk.injEq, and_true]
      obtain ⟨m, hm⟩ : ∃ m, cap - acc.length = m + 1 := ⟨cap - acc.length - 1, by omega⟩
      have hm2 : cap - (acc ++ [annotateInsight x_dimension y_dimension a]).length = m := by
        simp only [List.length_append, List.length_cons, List.length_nil]
        omega
      rw [hm, hm2, List.take_succ_cons, List.map_cons]
      simp [List.append_assoc]
    · have hstep : classifyStep x_dimension y_dimension cap
          { q1 := acc, q2 := [], q3 := [], q4 := [] } a =
          { q1 := acc, q2 := [], q3 := [], q4 := [] } := by
        simp only [classifyStep, ha, bucketList]
        rw [if_neg hlen]
      rw [hstep, ih _ ht]
      have h0 : cap - acc.length = 0 := by omega
      rw [h0]
      simp

/-- C3: for 20 insights that all classify to Q1 under the chosen dimensions,
`_classify_insights_to_quadrants` with cap 15 puts exactly the first 15 (in
input order, with their attached coordinates) into the Q1 bucket, the other 5
land in no bucket, and the summary's `quadrant_counts` entry for Q1 is 15. -/
theorem C3_quadrant_cap (insights : List Insight) (x_dimension y_dimension : String)
    (config : QuadrantConfig)
    (hlen : insights.length = 20)
    (hq : ∀ i ∈ insights, (annotateInsight x_dimension y_dimension i).quadrant = Quadrant.Q1) :
    (_classify_insights_to_quadrants insights x_dimension y_dimension 15).q1 =
      (insights.take 15).map (annotateInsight x_dimension y_dimension) ∧
    (_classify_insights_to_quadrants insights x_dimension y_dimension 15).q1.length = 15 ∧
    (_classify_insights_to_quadrants insights x_dimension y_dimension 15).q2 = [] ∧
    (_classify_insights_to_quadrants insights x_dimension y_dimension 15).q3 = [] ∧
    (_classify_insights_to_quadrants insights x_dimension y_dimension 15).q4 = [] ∧
    (_calculate_quadrant_summary
        (_classify_insights_to_quadrants insights x_dimension y_dimension 15)
        config).quadrant_counts =
      [(Quadrant.Q1, 15), (Quadrant.Q2, 0), (Quadrant.Q3, 0), (Quadrant.Q4, 0)] := by
  have key := classify_all_q1_aux x_dimension y_dimension 15 insights [] hq
  have hb : _classify_insights_to_quadrants insights x_dimension y_dimension 15 =
      { q1 := (insights.take 15).map (annotateInsight x_dimension y_dimension),
        q2 := [], q3 := [], q4 := [] } := by
    unfold _classify_insights_to_quadrants
    rw [key]
    simp
  have hl : ((insights.take 15).map (annotateInsight x_dimension y_dimension)).length = 15 := by
    rw [List.length_map, List.length_take, hlen]
    omega
  rw [hb]
  refine ⟨rfl, hl, rfl, rfl, rfl, ?_⟩
  simp [_calculate_quadrant_summary, quadrantOrder, bucketList, hl, hlen]

/-- Helper for the C3 witness: the sample insight classifies to Q1 under
dimensions importance/impact (its coordinates are (1, 1)). -/
theorem c3_sample_quadrant :
    (annotateInsight "importance" "impact" c3SampleInsight).quadrant = Quadrant.Q1 := by
  have h1 : xRaw "w" (max 0 (min 1 1)) (sentiment_value "neutral") "importance" =
      some ((max 0 (min 1 (1 : ℚ))) * 2 - 1) := by
    unfold xRaw
    rw [if_pos rfl]
  have h2 : yRaw "w" (max 0 (min 1 1)) (sentiment_value "neutral") "impact" =
      (max 0 (min 1 (1 : ℚ))) * 2 - 1 := by
    unfold yRaw
    rw [if_neg (by decide), if_pos rfl]
  have hco : _insight_to_coordinates "w" 1 "neutral" "importance" "impact" = (1, 1) := by
    simp only [_insight_to_coordinates, h1, h2]
    norm_num
  simp only [annotateInsight, c3SampleInsight, Option.getD_none, hco]
  unfold _calculate_quadrant_position
  norm_num

/-- C3 witness: twenty copies of the Q1-bound sample insight leave exactly 15
entries in the Q1 bucket. -/
theorem C3_quadrant_cap_witness :
    (_classify_insights_to_quadrants c3SampleList "importance" "impact" 15).q1.length = 15 :=
  (C3_quadrant_cap c3SampleList "importance" "impact" {} (by simp [c3SampleList])
    (fun i hi => by
      have hi2 : i ∈ List.replicate 20 c3SampleInsight := hi
      have h : i = c3SampleInsight := List.eq_of_mem_replicate hi2
      rw [h]
      exact c3_sample_quadrant)).2.1

/-- C4: an insights dictionary whose `key_points`, `main_topics` and
`entities` lists are all empty makes the normalizer produce an empty sequence,
and the generator surfaces a `QuadrantGenerationError` as a structured failure
result (the raised exception is caught and wrapped, not an unhandled crash). -/
theorem C4_empty_insights_error (config : QuadrantConfig) (options : Option VisOptionsIn) :
    generate_quadrant_analysis (some { key_points := [], main_topics := [], entities := [] })
      (some config) options =
      .failure "QuadrantGenerationError" "No insights available for quadrant analysis" := by
  simp [generate_quadrant_analysis, normalizeInsights]

/-- C7: `dominant_quadrant` picks a bucket of maximal size, and among the
maximal buckets the earliest key in the fixed order Q1,Q2,Q3,Q4; in
particular, for bucket sizes Q1:2, Q2:2, Q3:0, Q4:0 the summary's
`dominant_quadrant` is Q1. -/
theorem C7_dominant_tiebreak :
    (∀ b : Buckets,
      (∀ q : Quadrant, (bucketList b q).length ≤ (bucketList b (dominant_quadrant b)).length) ∧
      (∀ q : Quadrant, (bucketList b q).length = (bucketList b (dominant_quadrant b)).length →
        qIndex (dominant_quadrant b) ≤ qIndex q)) ∧
    (_calculate_quadrant_summary c7SampleBuckets {}).dominant_quadrant = some Quadrant.Q1 := by
  refine ⟨fun b => ?_, rfl⟩
  simp only [dominant_quadrant, List.foldl_cons, List.foldl_nil]
  split_ifs <;>
    refine ⟨fun q => ?_, fun q hq => ?_⟩ <;>
    cases q <;>
    simp_all [bucketList, qIndex] <;>
    omega

/-- C8: the pipeline is deterministic — two calls of
`generate_quadrant_analysis` on equal insights, equal configuration and equal
visualization options produce identical `svg_content` strings and identical
`quadrant_counts` mappings (the embedded pipeline is a pure function: the
source's geometry and classification path reads no clock and no randomness). -/
theorem C8_pipeline_deterministic (i1 i2 : Option InsightsInput)
    (c1 c2 : Option QuadrantConfig) (o1 o2 : Option VisOptionsIn)
    (hi : i1 = i2) (hc : c1 = c2) (ho : o1 = o2) :
    svgOf (generate_quadrant_analysis i1 c1 o1) = svgOf (generate_quadrant_analysis i2 c2 o2) ∧
    countsOf (generate_quadrant_analysis i1 c1 o1) =
      countsOf (generate_quadrant_analysis i2 c2 o2) := by
  subst hi; subst hc; subst ho
  exact ⟨rfl, rfl⟩

/-- C8 witness: the determinism theorem applied at a concrete repeated call. -/
theorem C8_pipeline_deterministic_witness :
    svgOf (generate_quadrant_analysis (some c9SampleInsights) (some c9SampleConfig) none) =
      svgOf (generate_quadrant_analysis (some c9SampleInsights) (some c9SampleConfig) none) ∧
    countsOf (generate_quadrant_analysis (some c9SampleInsights) (some c9SampleConfig) none) =
      countsOf (generate_quadrant_analysis (some c9SampleInsights) (some c9SampleConfig) none) :=
  C8_pipeline_deterministic (some c9SampleInsights) (some c9SampleInsights)
    (some c9SampleConfig) (some c9SampleConfig) none none rfl rfl rfl

/-- C9: with insights and axis configuration passing the earlier validations,
a `width` that is not an integer in [300, 1000] (for instance 1200) makes the
tool entry point return the width `ValidationError` result — a constant
independent of the insight data, so no geometry is computed — and, width
passing, an invalid `height` likewise returns the height `ValidationError`. -/
theorem C9_width_height_validation (ins : InsightsInput) (cfg : QuadrantConfig)
    (xa ya : AxisConfig) (opts : ToolVisOptions)
    (hne : ¬(ins.key_points = [] ∧ ins.main_topics = [] ∧ ins.entities = []))
    (hxa : cfg.x_axis = some xa) (hya : cfg.y_axis = some ya)
    (hxl : xa.label.getD "" ≠ "") (hyl : ya.label.getD "" ≠ "") :
    (pyIntOk (opts.width.getD (.int 500)) = false →
      tool_generate_quadrant_analysis (some ins) (some cfg) opts =
        .failure "ValidationError" "Width must be an integer between 300 and 1000") ∧
    (pyIntOk (opts.width.getD (.int 500)) = true →
      pyIntOk (opts.height.getD (.int 500)) = false →
      tool_generate_quadrant_analysis (some ins) (some cfg) opts =
        .failure "ValidationError" "Height must be an integer between 300 and 1000") := by
  have hb : (ins.key_points.isEmpty && ins.main_topics.isEmpty && ins.entities.isEmpty)
      = false := by
    rcases h1 : ins.key_points.isEmpty <;> rcases h2 : ins.main_topics.isEmpty <;>
      rcases h3 : ins.entities.isEmpty <;> simp_all [List.isEmpty_iff]
  constructor
  · intro hw
    simp only [tool_generate_quadrant_analysis, hb, hxa, hya, Bool.false_and, Bool.and_self]
    rw [if_neg (by simp), if_neg hxl, if_neg hyl, if_pos (by simp [hw])]
  · intro hw hh
    simp only [tool_generate_quadrant_analysis, hb, hxa, hya, Bool.false_and, Bool.and_self]
    rw [if_neg (by simp), if_neg hxl, if_neg hyl, if_neg (by simp [hw]),
      if_pos (by simp [hh])]

/-- C9 witness: width 1200 on a valid insights/configuration pair yields the
width `ValidationError` failure. -/
theorem C9_width_height_validation_witness :
    tool_generate_quadrant_analysis (some c9SampleInsights) (some c9SampleConfig)
      { width := some (.int 1200) } =
      .failure "ValidationError" "Width must be an integer between 300 and 1000" :=
  (C9_width_height_validation c9SampleInsights c9SampleConfig
    { label := some "Impact" } { label := some "Effort" } { width := some (.int 1200) }
    (by simp [c9SampleInsights]) rfl rfl (by decide) (by decide)).1 (by decide)

/-- C10: with no `dimension` key on either axis, the generator defaults the x
dimension to `importance` and the y dimension to `impact`, and under those two
dimensions every insight's coordinates satisfy x = y (both are the clamp of
`importance*2 - 1`). -/
theorem C10_default_dimensions (cfg : QuadrantConfig)
    (hx : (cfg.x_axis.getD {}).dimension = none)
    (hy : (cfg.y_axis.getD {}).dimension = none)
    (insight_text : String) (importance : ℚ) (sentiment : String) :
    xDimensionOf cfg = "importance" ∧ yDimensionOf cfg = "impact" ∧
    (_insight_to_coordinates insight_text importance sentiment
        (xDimensionOf cfg) (yDimensionOf cfg)).1 =
      (_insight_to_coordinates insight_text importance sentiment
        (xDimensionOf cfg) (yDimensionOf cfg)).2 := by
  have hxd : xDimensionOf cfg = "importance" := by rw [xDimensionOf, hx]; rfl
  have hyd : yDimensionOf cfg = "impact" := by rw [yDimensionOf, hy]; rfl
  refine ⟨hxd, hyd, ?_⟩
  rw [hxd, hyd]
  have h1 : xRaw insight_text (max 0 (min 1 importance)) (sentiment_value sentiment)
      "importance" = some ((max 0 (min 1 importance)) * 2 - 1) := by
    unfold xRaw
    rw [if_pos rfl]
  have h2 : yRaw insight_text (max 0 (min 1 importance)) (sentiment_value sentiment)
      "impact" = (max 0 (min 1 importance)) * 2 - 1 := by
    unfold yRaw
    rw [if_neg (by decide), if_pos rfl]
  simp only [_insight_to_coordinates, h1, h2]

/-- C10 witness: the default-dimension theorem applied to a configuration
without `dimension` keys and a concrete insight. -/
theorem C10_default_dimensions_witness :
    xDimensionOf c9SampleConfig = "importance" ∧ yDimensionOf c9SampleConfig = "impact" ∧
    (_insight_to_coordinates "Implement it" (7/10) "positive"
        (xDimensionOf c9SampleConfig) (yDimensionOf c9SampleConfig)).1 =
      (_insight_to_coordinates "Implement it" (7/10) "positive"
        (xDimensionOf c9SampleConfig) (yDimensionOf c9SampleConfig)).2 :=
  C10_default_dimensions c9SampleConfig rfl rfl "Implement it" (7/10) "positive"
